import Mathlib

/-!
Verification of the `terrenghenter` terrain-fetching tool
(`src/terrenghenter/api.py`) against its natural-language specification.

Coordinates, sizes and resolutions are modelled as exact rationals (`ℚ`);
the pyproj coordinate transform is an external black box and appears as an
abstract function parameter; Python `int()` on a quotient is truncation
toward zero; the HTTP exchange is modelled by passing the response the
service returned, and the filesystem by an explicit directory set and
path-to-bytes association list.
-/

set_option autoImplicit false

namespace Terrenghenter

/-- Service limit from `api.py`: `MAX_IMAGE_SIZE = 15000` pixels per dimension. -/
def MAX_IMAGE_SIZE : ℤ := 15000

/-- Python `int()` applied to a (real-valued) quotient: truncation toward zero. -/
def pyTrunc (q : ℚ) : ℤ :=
  if q < 0 then -⌊-q⌋ else ⌊q⌋

/-- Character-list version of `String.startsWith` used to build substring search. -/
def startsWithChars : List Char → List Char → Bool
  | [], _ => true
  | _ :: _, [] => false
  | p :: ps, c :: cs => p == c && startsWithChars ps cs

/-- Does the second character list contain the first as a contiguous sublist? -/
def containsChars : List Char → List Char → Bool
  | pat, [] => startsWithChars pat []
  | pat, c :: cs => startsWithChars pat (c :: cs) || containsChars pat cs

/-- Python `pat in s` substring test on strings. -/
def strContains (s pat : String) : Bool :=
  containsChars pat.toList s.toList

/-- Python `str.lower()` (modelled characterwise). -/
def strToLower (s : String) : String :=
  String.mk (s.toList.map Char.toLower)

/-- Decimal digits of the fractional part `f` (with `0 ≤ f < 1`), fuelled;
stops when the remainder is zero. Models Python float formatting for values
whose decimal expansion terminates. -/
def fracDigitsAux : Nat → ℚ → String
  | 0, _ => ""
  | Nat.succ n, f =>
      if f = 0 then ""
      else
        let d : ℤ := ⌊f * 10⌋
        toString d ++ fracDigitsAux n (f * 10 - (d : ℚ))

/-- Python `str()` of a nonnegative float with terminating decimal expansion:
integer part, a dot, then the fractional digits (at least one digit, `"0"`). -/
def pyFloatReprNonneg (q : ℚ) : String :=
  let n : ℤ := ⌊q⌋
  let f : ℚ := q - (n : ℚ)
  let fracStr : String := if f = 0 then "0" else fracDigitsAux 40 f
  toString n ++ "." ++ fracStr

/-- Python `str()` of a float with terminating decimal expansion (models the
`f"{x}"` interpolation in `to_bbox_string`). -/
def pyFloatRepr (q : ℚ) : String :=
  if q < 0 then "-" ++ pyFloatReprNonneg (-q) else pyFloatReprNonneg q

/-- `BoundingBox` dataclass from `api.py`: four bounds in EPSG:25833 meters. -/
structure BoundingBox where
  min_x : ℚ
  min_y : ℚ
  max_x : ℚ
  max_y : ℚ
  deriving DecidableEq, Repr

/-- `BoundingBox.from_wgs84`: each corner is transformed independently by the
WGS84→UTM33 transform (the pyproj transformer, abstract here). -/
def BoundingBox.from_wgs84 (transform : ℚ × ℚ → ℚ × ℚ)
    (min_lon min_lat max_lon max_lat : ℚ) : BoundingBox :=
  let p1 := transform (min_lon, min_lat)
  let p2 := transform (max_lon, max_lat)
  { min_x := p1.1, min_y := p1.2, max_x := p2.1, max_y := p2.2 }

/-- `BoundingBox.from_center_and_size`: the center is transformed once, then
half-width/half-height offsets are added directly in projected meters. -/
def BoundingBox.from_center_and_size (transform : ℚ × ℚ → ℚ × ℚ)
    (center_lon center_lat width_m height_m : ℚ) : BoundingBox :=
  let c := transform (center_lon, center_lat)
  let half_w := width_m / 2
  let half_h := height_m / 2
  { min_x := c.1 - half_w, min_y := c.2 - half_h,
    max_x := c.1 + half_w, max_y := c.2 + half_h }

/-- `BoundingBox.width` property: `max_x - min_x`. -/
def BoundingBox.width (b : BoundingBox) : ℚ := b.max_x - b.min_x

/-- `BoundingBox.height` property: `max_y - min_y`. -/
def BoundingBox.height (b : BoundingBox) : ℚ := b.max_y - b.min_y

/-- `BoundingBox.to_bbox_string`: the f-string
`f"{min_x},{min_y},{max_x},{max_y}"`. -/
def BoundingBox.to_bbox_string (b : BoundingBox) : String :=
  pyFloatRepr b.min_x ++ "," ++ pyFloatRepr b.min_y ++ ","
    ++ pyFloatRepr b.max_x ++ "," ++ pyFloatRepr b.max_y

/-- The two `int()` conversions at the top of `_calculate_image_size`, before
the clamping step. -/
def rawImageSize (resolution : ℚ) (bbox : BoundingBox) : ℤ × ℤ :=
  (pyTrunc (bbox.width / resolution), pyTrunc (bbox.height / resolution))

/-- `HoydedataClient._calculate_image_size`: raw truncated dimensions, then a
rescale (again truncated) when either exceeds `MAX_IMAGE_SIZE`. -/
def _calculate_image_size (resolution : ℚ) (bbox : BoundingBox) : ℤ × ℤ :=
  let width := (rawImageSize resolution bbox).1
  let height := (rawImageSize resolution bbox).2
  if MAX_IMAGE_SIZE < width ∨ MAX_IMAGE_SIZE < height then
    let scale : ℚ := (MAX_IMAGE_SIZE : ℚ) / ((max width height : ℤ) : ℚ)
    (pyTrunc ((width : ℚ) * scale), pyTrunc ((height : ℚ) * scale))
  else
    (width, height)

/-- An HTTP response as seen by `fetch_dtm`: status code, header list and
body bytes. -/
structure HttpResponse where
  status : Nat
  headers : List (String × String)
  content : List Nat
  deriving DecidableEq, Repr

/-- httpx `response.headers.get(key, default)`: case-insensitive lookup of
the first matching header, with a default. -/
def headersGetD (headers : List (String × String)) (key dflt : String) : String :=
  match headers.find? (fun p => strToLower p.1 == strToLower key) with
  | some p => p.2
  | none => dflt

/-- The two failure kinds `fetch_dtm` can raise: `httpx.HTTPStatusError` from
`raise_for_status` (carrying status and body) and the `ValueError` from the
content-type guard (carrying the offending content type). -/
inductive FetchError where
  | httpStatus (status : Nat) (body : List Nat)
  | validationError (content_type : String)
  deriving DecidableEq, Repr

/-- Filesystem state: the set of existing directories (as component lists)
and an association list from file paths to byte contents. -/
structure FS where
  dirs : List (List String)
  files : List (List String × List Nat)
  deriving DecidableEq, Repr

/-- All prefixes of a path's component list: the chain of directories that
`mkdir(parents=True, exist_ok=True)` guarantees to exist afterwards. -/
def ancestors (parts : List String) : List (List String) :=
  (List.range (parts.length + 1)).map (fun n => parts.take n)

/-- Add one directory if not already present. -/
def addDir (ds : List (List String)) (d : List String) : List (List String) :=
  if d ∈ ds then ds else ds ++ [d]

/-- `path.mkdir(parents=True, exist_ok=True)`: create the directory and all
its ancestors, keeping those that already exist. -/
def mkdirParents (fs : FS) (dir : List String) : FS :=
  { fs with dirs := (ancestors dir).foldl addDir fs.dirs }

/-- `path.write_bytes(data)`: create or overwrite the file at `path`. -/
def write_bytes (fs : FS) (path : List String) (data : List Nat) : FS :=
  { fs with files := (path, data) :: fs.files.filter (fun e => !(e.1 == path)) }

/-- Contents of the file at `path`, if one exists. -/
def fileAt (fs : FS) (path : List String) : Option (List Nat) :=
  match fs.files.find? (fun e => e.1 == path) with
  | some e => some e.2
  | none => none

/-- The fixed query parameters `fetch_dtm` sends to the export endpoint. -/
def fetchParams (resolution : ℚ) (bbox : BoundingBox) : List (String × String) :=
  let wh := _calculate_image_size resolution bbox
  [("bbox", bbox.to_bbox_string),
   ("bboxSR", "25833"),
   ("imageSR", "25833"),
   ("size", toString wh.1 ++ "," ++ toString wh.2),
   ("format", "tiff"),
   ("pixelType", "F32"),
   ("interpolation", "RSP_BilinearInterpolation"),
   ("f", "image")]

/-- `HoydedataClient.fetch_dtm`, given the response the service returned for
the request: `raise_for_status`, then the content-type guard, then
`mkdir(parents=True, exist_ok=True)` on the parent and `write_bytes`.
Returns the outcome together with the (possibly updated) filesystem. -/
def fetch_dtm (resolution : ℚ) (bbox : BoundingBox) (output_path : List String)
    (response : HttpResponse) (fs : FS) :
    Except FetchError (List String) × FS :=
  let _params := fetchParams resolution bbox
  if 200 ≤ response.status ∧ response.status < 300 then
    let content_type := headersGetD response.headers "content-type" ""
    if strContains (strToLower content_type) "tiff" = false
        ∧ strContains (strToLower content_type) "image" = false then
      (Except.error (FetchError.validationError content_type), fs)
    else
      let fs1 := mkdirParents fs output_path.dropLast
      let fs2 := write_bytes fs1 output_path response.content
      (Except.ok output_path, fs2)
  else
    (Except.error (FetchError.httpStatus response.status response.content), fs)

section Proofs

attribute [local semireducible] Rat.mul Rat.sub Rat.add Rat.inv Rat.ofScientific

/-- Truncation toward zero agrees with the floor on nonnegative arguments. -/
theorem pyTrunc_eq_floor_of_nonneg {q : ℚ} (h : 0 ≤ q) : pyTrunc q = ⌊q⌋ := by
  simp only [pyTrunc, if_neg (not_lt.mpr h)]

/-- Truncation toward zero of a nonnegative value is nonnegative. -/
theorem pyTrunc_nonneg {q : ℚ} (h : 0 ≤ q) : 0 ≤ pyTrunc q := by
  rw [pyTrunc_eq_floor_of_nonneg h]
  exact Int.floor_nonneg.mpr h

/-- Adding one directory keeps every directory that was already present. -/
theorem mem_addDir_of_mem {ds : List (List String)} {x d : List String}
    (h : x ∈ ds) : x ∈ addDir ds d := by
  unfold addDir
  split
  · exact h
  · exact List.mem_append_left _ h

/-- Adding one directory makes it present. -/
theorem mem_addDir_self (ds : List (List String)) (d : List String) :
    d ∈ addDir ds d := by
  unfold addDir
  split
  · assumption
  · exact List.mem_append_right _ (List.mem_singleton.mpr rfl)

/-- Folding `addDir` keeps every directory that was already present. -/
theorem mem_foldl_addDir_of_mem {x : List String} {l : List (List String)} :
    ∀ {acc : List (List String)}, x ∈ acc → x ∈ l.foldl addDir acc := by
  induction l with
  | nil => intro acc h; simpa using h
  | cons d l ih =>
      intro acc h
      exact ih (mem_addDir_of_mem h)

/-- Folding `addDir` over a list of directories makes each of them present. -/
theorem mem_foldl_addDir {x : List String} {l : List (List String)}
    (h : x ∈ l) : ∀ (acc : List (List String)), x ∈ l.foldl addDir acc := by
  induction l with
  | nil => cases h
  | cons d l ih =>
      intro acc
      rw [List.foldl_cons]
      rcases List.mem_cons.mp h with rfl | h
      · exact mem_foldl_addDir_of_mem (mem_addDir_self acc x)
      · exact ih h (addDir acc d)

/-- After `write_bytes`, the written path holds exactly the written bytes. -/
theorem fileAt_write_bytes (fs : FS) (path : List String) (data : List Nat) :
    fileAt (write_bytes fs path data) path = some data := by
  simp [fileAt, write_bytes, List.find?]

/-- `mkdirParents` makes every ancestor of the directory present. -/
theorem mem_dirs_mkdirParents (fs : FS) (dir : List String) :
    ∀ d ∈ ancestors dir, d ∈ (mkdirParents fs dir).dirs := by
  intro d hd
  exact mem_foldl_addDir hd fs.dirs

/-- Claim C1: on a non-2xx HTTP status, `fetch_dtm` fails with an HTTP-status
error carrying the status (and body), and the filesystem is returned
unchanged — in particular no file is created at the destination path. -/
theorem fetch_dtm_http_error (resolution : ℚ) (bbox : BoundingBox)
    (output_path : List String) (response : HttpResponse) (fs : FS)
    (h : ¬ (200 ≤ response.status ∧ response.status < 300)) :
    fetch_dtm resolution bbox output_path response fs
      = (Except.error (FetchError.httpStatus response.status response.content), fs) := by
  simp only [fetch_dtm]
  rw [if_neg h]

/-- Witness for C1: a simulated HTTP 500 response on an empty filesystem. -/
theorem fetch_dtm_http_error_witness :
    fetch_dtm 1 (BoundingBox.mk 0 0 1 1) ["out.tif"]
        (HttpResponse.mk 500 [] [1, 2, 3]) (FS.mk [] [])
      = (Except.error (FetchError.httpStatus 500 [1, 2, 3]), FS.mk [] []) :=
  fetch_dtm_http_error 1 (BoundingBox.mk 0 0 1 1) ["out.tif"]
    (HttpResponse.mk 500 [] [1, 2, 3]) (FS.mk [] []) (by decide)

/-- Claim C2: on a 2xx status whose declared content type (lowercased)
contains neither "tiff" nor "image", `fetch_dtm` fails with a validation
error carrying that content type, and the filesystem is returned unchanged
— no file is written at the destination path. -/
theorem fetch_dtm_content_type_error (resolution : ℚ) (bbox : BoundingBox)
    (output_path : List String) (response : HttpResponse) (fs : FS) (ct : String)
    (hct : headersGetD response.headers "content-type" "" = ct)
    (hok : 200 ≤ response.status ∧ response.status < 300)
    (htiff : strContains (strToLower ct) "tiff" = false)
    (himage : strContains (strToLower ct) "image" = false) :
    fetch_dtm resolution bbox output_path response fs
      = (Except.error (FetchError.validationError ct), fs) := by
  simp only [fetch_dtm]
  rw [if_pos hok, hct, if_pos ⟨htiff, himage⟩]

/-- Witness for C2: a simulated HTTP 200 response with content type
"text/html". -/
theorem fetch_dtm_content_type_error_witness :
    fetch_dtm 1 (BoundingBox.mk 0 0 1 1) ["out.tif"]
        (HttpResponse.mk 200 [("content-type", "text/html")] [1, 2, 3]) (FS.mk [] [])
      = (Except.error (FetchError.validationError "text/html"), FS.mk [] []) :=
  fetch_dtm_content_type_error 1 (BoundingBox.mk 0 0 1 1) ["out.tif"]
    (HttpResponse.mk 200 [("content-type", "text/html")] [1, 2, 3]) (FS.mk [] [])
    "text/html" (by decide) (by decide) (by decide) (by decide)

/-- Claim C3: on a 200 response with content type "image/tiff" and nonzero
body, `fetch_dtm` returns the destination path, the destination file holds
exactly the response body (overwriting any existing file), and every missing
ancestor directory of the destination is created. -/
theorem fetch_dtm_success (resolution : ℚ) (bbox : BoundingBox)
    (output_path : List String) (response : HttpResponse) (fs : FS)
    (hstatus : response.status = 200)
    (hct : headersGetD response.headers "content-type" "" = "image/tiff")
    (hbody : response.content ≠ []) :
    fetch_dtm resolution bbox output_path response fs
      = (Except.ok output_path,
         write_bytes (mkdirParents fs output_path.dropLast) output_path response.content)
    ∧ fileAt (fetch_dtm resolution bbox output_path response fs).2 output_path
        = some response.content
    ∧ ∀ d ∈ ancestors output_path.dropLast,
        d ∈ (fetch_dtm resolution bbox output_path response fs).2.dirs := by
  have heq : fetch_dtm resolution bbox output_path response fs
      = (Except.ok output_path,
         write_bytes (mkdirParents fs output_path.dropLast) output_path response.content) := by
    simp only [fetch_dtm]
    rw [if_pos (by rw [hstatus]; exact ⟨by norm_num, by norm_num⟩), hct]
    rw [if_neg (by decide)]
  refine ⟨heq, ?_, ?_⟩
  · rw [heq]
    exact fileAt_write_bytes _ _ _
  · rw [heq]
    intro d hd
    exact mem_dirs_mkdirParents fs output_path.dropLast d hd

/-- Witness for C3: a 200 "image/tiff" response with a one-byte body, a
destination with one parent directory, and a pre-existing file at the
destination that gets overwritten. -/
theorem fetch_dtm_success_witness :
    fetch_dtm 1 (BoundingBox.mk 0 0 1 1) ["sub", "out.tif"]
        (HttpResponse.mk 200 [("content-type", "image/tiff")] [7]) (FS.mk [] [(["sub", "out.tif"], [9])])
      = (Except.ok ["sub", "out.tif"],
         write_bytes (mkdirParents (FS.mk [] [(["sub", "out.tif"], [9])]) ["sub"])
           ["sub", "out.tif"] [7])
    ∧ fileAt (fetch_dtm 1 (BoundingBox.mk 0 0 1 1) ["sub", "out.tif"]
        (HttpResponse.mk 200 [("content-type", "image/tiff")] [7])
        (FS.mk [] [(["sub", "out.tif"], [9])])).2 ["sub", "out.tif"] = some [7]
    ∧ ∀ d ∈ ancestors ["sub"],
        d ∈ (fetch_dtm 1 (BoundingBox.mk 0 0 1 1) ["sub", "out.tif"]
          (HttpResponse.mk 200 [("content-type", "image/tiff")] [7])
          (FS.mk [] [(["sub", "out.tif"], [9])])).2.dirs :=
  fetch_dtm_success 1 (BoundingBox.mk 0 0 1 1) ["sub", "out.tif"]
    (HttpResponse.mk 200 [("content-type", "image/tiff")] [7])
    (FS.mk [] [(["sub", "out.tif"], [9])]) rfl (by decide) (by decide)

/-- Claim C4: a 10000m by 5000m box at resolution 1.0 yields pixel size
(10000, 5000); a 20000m by 20000m box at resolution 1.0 exceeds the 15000
cap and is scaled to (15000, 15000), whose maximum dimension is 15000 and
whose aspect ratio matches the input's 1:1. -/
theorem calculate_image_size_examples (b1 b2 : BoundingBox)
    (h1w : b1.width = 10000) (h1h : b1.height = 5000)
    (h2w : b2.width = 20000) (h2h : b2.height = 20000) :
    _calculate_image_size 1 b1 = (10000, 5000)
    ∧ _calculate_image_size 1 b2 = (15000, 15000) := by
  constructor
  · simp only [_calculate_image_size, rawImageSize, h1w, h1h]
    norm_num [pyTrunc, MAX_IMAGE_SIZE]
  · simp only [_calculate_image_size, rawImageSize, h2w, h2h]
    norm_num [pyTrunc, MAX_IMAGE_SIZE]

/-- Witness for C4: concrete boxes of the stated sizes. -/
theorem calculate_image_size_examples_witness :
    _calculate_image_size 1 (BoundingBox.mk 0 0 10000 5000) = (10000, 5000)
    ∧ _calculate_image_size 1 (BoundingBox.mk 0 0 20000 20000) = (15000, 15000) :=
  calculate_image_size_examples (BoundingBox.mk 0 0 10000 5000)
    (BoundingBox.mk 0 0 20000 20000) (by decide) (by decide) (by decide) (by decide)

/-- Counterexample for C5: for the malformed box with `width = -1` and
resolution 2, the code's raw width is `int(-0.5) = 0` (truncation toward
zero), not `floor(-0.5) = -1` as the claim states. -/
theorem rawImageSize_floor_cex :
    ¬ ((rawImageSize 2 (BoundingBox.mk 1 0 0 0)).1
        = ⌊(BoundingBox.mk 1 0 0 0).width / 2⌋) := by decide

/-- Claim C5 (amended): the raw dimensions equal the truncation toward zero
of `width / resolution` and `height / resolution`; whenever the box's width
and height are nonnegative this coincides with the floor, as claimed. -/
theorem rawImageSize_eq_floor_of_nonneg (resolution : ℚ) (bbox : BoundingBox)
    (hres : 0 < resolution) (hw : 0 ≤ bbox.width) (hh : 0 ≤ bbox.height) :
    rawImageSize resolution bbox
      = (⌊bbox.width / resolution⌋, ⌊bbox.height / resolution⌋) := by
  unfold rawImageSize
  rw [pyTrunc_eq_floor_of_nonneg (div_nonneg hw hres.le),
      pyTrunc_eq_floor_of_nonneg (div_nonneg hh hres.le)]

/-- Witness for C5 (amended): a 3m by 5m box at resolution 2. -/
theorem rawImageSize_eq_floor_of_nonneg_witness :
    rawImageSize 2 (BoundingBox.mk 0 0 3 5)
      = (⌊(BoundingBox.mk 0 0 3 5).width / 2⌋, ⌊(BoundingBox.mk 0 0 3 5).height / 2⌋) :=
  rawImageSize_eq_floor_of_nonneg 2 (BoundingBox.mk 0 0 3 5)
    (by norm_num) (by decide) (by decide)

/-- Counterexample for C6: the box from (0,0) to (0.5, 0.5) has positive
width and height, yet at resolution 1.0 the calculator returns (0, 0),
which is not a pair of positive integers. -/
theorem calculate_image_size_positive_cex :
    0 < (BoundingBox.mk 0 0 ((1:ℚ)/2) ((1:ℚ)/2)).width
    ∧ 0 < (BoundingBox.mk 0 0 ((1:ℚ)/2) ((1:ℚ)/2)).height
    ∧ ¬ (0 < (_calculate_image_size 1 (BoundingBox.mk 0 0 ((1:ℚ)/2) ((1:ℚ)/2))).1
          ∧ 0 < (_calculate_image_size 1 (BoundingBox.mk 0 0 ((1:ℚ)/2) ((1:ℚ)/2))).2) := by
  decide

/-- Claim C6 (amended): for every bounding box with positive width and
height and every resolution > 0, the calculator returns a pair of
nonnegative integers (a dimension can be zero when the box is smaller than
one pixel, or collapses under the clamping rescale). -/
theorem calculate_image_size_nonneg (resolution : ℚ) (bbox : BoundingBox)
    (hres : 0 < resolution) (hw : 0 < bbox.width) (hh : 0 < bbox.height) :
    0 ≤ (_calculate_image_size resolution bbox).1
    ∧ 0 ≤ (_calculate_image_size resolution bbox).2 := by
  have hw0 : (0:ℤ) ≤ (rawImageSize resolution bbox).1 :=
    pyTrunc_nonneg (div_nonneg hw.le hres.le)
  have hh0 : (0:ℤ) ≤ (rawImageSize resolution bbox).2 :=
    pyTrunc_nonneg (div_nonneg hh.le hres.le)
  simp only [_calculate_image_size]
  by_cases hcond : MAX_IMAGE_SIZE < (rawImageSize resolution bbox).1
      ∨ MAX_IMAGE_SIZE < (rawImageSize resolution bbox).2
  · rw [if_pos hcond]
    have hmax : (0:ℤ) ≤ max (rawImageSize resolution bbox).1 (rawImageSize resolution bbox).2 :=
      le_trans hw0 (le_max_left _ _)
    have hscale : (0:ℚ) ≤ (MAX_IMAGE_SIZE : ℚ)
        / ((max (rawImageSize resolution bbox).1 (rawImageSize resolution bbox).2 : ℤ) : ℚ) := by
      apply div_nonneg
      · norm_num [MAX_IMAGE_SIZE]
      · exact_mod_cast hmax
    constructor
    · exact pyTrunc_nonneg (mul_nonneg (by exact_mod_cast hw0) hscale)
    · exact pyTrunc_nonneg (mul_nonneg (by exact_mod_cast hh0) hscale)
  · rw [if_neg hcond]
    exact ⟨hw0, hh0⟩

/-- Witness for C6 (amended): a 3m by 5m box at resolution 2. -/
theorem calculate_image_size_nonneg_witness :
    0 ≤ (_calculate_image_size 2 (BoundingBox.mk 0 0 3 5)).1
    ∧ 0 ≤ (_calculate_image_size 2 (BoundingBox.mk 0 0 3 5)).2 :=
  calculate_image_size_nonneg 2 (BoundingBox.mk 0 0 3 5)
    (by norm_num) (by decide) (by decide)

/-- Claim C7: a box built from a center and a size has exactly that width
and height, and the transformed center is its midpoint in both coordinates
(the half-size offsets are applied in projected meters, to the transformed
center, which is transformed only once). -/
theorem from_center_and_size_spec (transform : ℚ × ℚ → ℚ × ℚ)
    (center_lon center_lat width_m height_m : ℚ) :
    (BoundingBox.from_center_and_size transform center_lon center_lat width_m height_m).width
      = width_m
    ∧ (BoundingBox.from_center_and_size transform center_lon center_lat width_m height_m).height
      = height_m
    ∧ ((BoundingBox.from_center_and_size transform center_lon center_lat width_m height_m).min_x
        + (BoundingBox.from_center_and_size transform center_lon center_lat width_m height_m).max_x)
        / 2
      = (transform (center_lon, center_lat)).1
    ∧ ((BoundingBox.from_center_and_size transform center_lon center_lat width_m height_m).min_y
        + (BoundingBox.from_center_and_size transform center_lon center_lat width_m height_m).max_y)
        / 2
      = (transform (center_lon, center_lat)).2 := by
  refine ⟨?_, ?_, ?_, ?_⟩ <;>
    simp only [BoundingBox.from_center_and_size, BoundingBox.width, BoundingBox.height] <;>
    ring

/-- Claim C8: the box with bounds (100.5, 200.25, 300.75, 400.0) serializes
to exactly "100.5,200.25,300.75,400.0". -/
theorem to_bbox_string_concrete :
    (BoundingBox.mk (100.5 : ℚ) (200.25 : ℚ) (300.75 : ℚ) (400.0 : ℚ)).to_bbox_string
      = "100.5,200.25,300.75,400.0" := by decide

/-- Claim C9: `from_wgs84` transforms each corner independently, and when
the transform preserves the coordinate-wise order of the two corners the
resulting box satisfies `min_x ≤ max_x` and `min_y ≤ max_y`. -/
theorem from_wgs84_spec (transform : ℚ × ℚ → ℚ × ℚ)
    (min_lon min_lat max_lon max_lat : ℚ)
    (hlon : min_lon < max_lon) (hlat : min_lat < max_lat)
    (hx : (transform (min_lon, min_lat)).1 ≤ (transform (max_lon, max_lat)).1)
    (hy : (transform (min_lon, min_lat)).2 ≤ (transform (max_lon, max_lat)).2) :
    BoundingBox.from_wgs84 transform min_lon min_lat max_lon max_lat
      = BoundingBox.mk (transform (min_lon, min_lat)).1 (transform (min_lon, min_lat)).2
          (transform (max_lon, max_lat)).1 (transform (max_lon, max_lat)).2
    ∧ (BoundingBox.from_wgs84 transform min_lon min_lat max_lon max_lat).min_x
        ≤ (BoundingBox.from_wgs84 transform min_lon min_lat max_lon max_lat).max_x
    ∧ (BoundingBox.from_wgs84 transform min_lon min_lat max_lon max_lat).min_y
        ≤ (BoundingBox.from_wgs84 transform min_lon min_lat max_lon max_lat).max_y :=
  ⟨rfl, hx, hy⟩

/-- Witness for C9: the identity transform on corners (0,0) and (1,1). -/
theorem from_wgs84_spec_witness :
    BoundingBox.from_wgs84 (fun p => p) 0 0 1 1 = BoundingBox.mk 0 0 1 1
    ∧ (BoundingBox.from_wgs84 (fun p => p) 0 0 1 1).min_x
        ≤ (BoundingBox.from_wgs84 (fun p => p) 0 0 1 1).max_x
    ∧ (BoundingBox.from_wgs84 (fun p => p) 0 0 1 1).min_y
        ≤ (BoundingBox.from_wgs84 (fun p => p) 0 0 1 1).max_y :=
  from_wgs84_spec (fun p => p) 0 0 1 1 (by decide) (by decide) (by decide) (by decide)

/-- Claim C10: on a 2xx response with no content-type header at all, the
content type defaults to the empty string, which contains neither "image"
nor "tiff", so `fetch_dtm` fails with the validation error on "" and no
file is written; and the guard accepts any content type whose lowercased
form contains the substring "tiff" or "image". -/
theorem fetch_dtm_content_type_default (resolution : ℚ) (bbox : BoundingBox)
    (output_path : List String) (fs : FS) :
    (∀ response : HttpResponse,
        200 ≤ response.status → response.status < 300 →
        response.headers.find? (fun p => strToLower p.1 == strToLower "content-type") = none →
        fetch_dtm resolution bbox output_path response fs
          = (Except.error (FetchError.validationError ""), fs))
    ∧ (∀ response : HttpResponse,
        200 ≤ response.status → response.status < 300 →
        (strContains (strToLower (headersGetD response.headers "content-type" "")) "tiff" = true
          ∨ strContains (strToLower (headersGetD response.headers "content-type" "")) "image"
              = true) →
        fetch_dtm resolution bbox output_path response fs
          = (Except.ok output_path,
             write_bytes (mkdirParents fs output_path.dropLast) output_path response.content)) := by
  constructor
  · intro response h1 h2 hfind
    have hct : headersGetD response.headers "content-type" "" = "" := by
      unfold headersGetD
      rw [hfind]
    simp only [fetch_dtm]
    rw [if_pos ⟨h1, h2⟩, hct, if_pos (by decide)]
  · intro response h1 h2 hacc
    simp only [fetch_dtm]
    rw [if_pos ⟨h1, h2⟩, if_neg ?_]
    rintro ⟨ht, hi⟩
    rcases hacc with h | h
    · rw [ht] at h
      cases h
    · rw [hi] at h
      cases h

/-- Witness for C10: a headerless 200 response is rejected with the empty
content type; a 204 response declaring "image/tiff" is accepted. -/
theorem fetch_dtm_content_type_default_witness :
    fetch_dtm 1 (BoundingBox.mk 0 0 1 1) ["out.tif"] (HttpResponse.mk 200 [] [1]) (FS.mk [] [])
      = (Except.error (FetchError.validationError ""), FS.mk [] [])
    ∧ fetch_dtm 1 (BoundingBox.mk 0 0 1 1) ["out.tif"]
        (HttpResponse.mk 204 [("content-type", "image/tiff")] [1]) (FS.mk [] [])
      = (Except.ok ["out.tif"],
         write_bytes (mkdirParents (FS.mk [] []) []) ["out.tif"] [1]) :=
  ⟨(fetch_dtm_content_type_default 1 (BoundingBox.mk 0 0 1 1) ["out.tif"] (FS.mk [] [])).1
      (HttpResponse.mk 200 [] [1]) (by decide) (by decide) (by decide),
   (fetch_dtm_content_type_default 1 (BoundingBox.mk 0 0 1 1) ["out.tif"] (FS.mk [] [])).2
      (HttpResponse.mk 204 [("content-type", "image/tiff")] [1]) (by decide) (by decide)
      (Or.inl (by decide))⟩

end Proofs

end Terrenghenter
